import Mathlib

/-!
Verification of the NES emulator core (danijoo/jane) against its
natural-language specification.

Shallow embedding conventions:
* Rust `u8` (`Byte`) and `u16` (`Word`/`Addr`) values are represented as
  `Nat`; reductions modulo `2^8` / `2^16` are written explicitly at the
  places where the Rust code can overflow or truncate.
* The PPU-side memory (trait `PPUMemory`, implemented by `PPUBus`, which
  is not among the sources) is represented as a total function
  `Nat → Nat`; reads apply the function, writes produce a pointwise
  update.  Stateful Rust methods become Lean functions returning the
  updated state.
-/

/-! ## PPU data model (src/nes/ppu.rs) -/

/-- Status register flag `VERTICAL_BLANK = 1 << 7` (src/nes/ppu.rs). -/
def VERTICAL_BLANK : Nat := 1 <<< 7

/-- Control register flag `ENABLE_NMI = 1 << 7` (src/nes/ppu.rs). -/
def ENABLE_NMI : Nat := 1 <<< 7

/-- Control register flag `INCREMENT_MODE = 1 << 2` (src/nes/ppu.rs). -/
def INCREMENT_MODE : Nat := 1 <<< 2

/-- Union of the three defined `Status` bits (bits 5, 6, 7).  The
`bitflags!` macro's complement operator `!flag` complements within the
defined bits only: `!f = all & ~f`, i.e. `statusAll ^^^ f` for a defined
flag `f`. -/
def statusAll : Nat := (1 <<< 5) ||| (1 <<< 6) ||| (1 <<< 7)

/-- The `Registers` struct of the PPU (src/nes/ppu.rs, lines 59-78). -/
structure Registers where
  ctrl : Nat
  mask : Nat
  status : Nat
  oam_addr : Nat
  oam_data : Nat
  scroll : Nat
  addr : Nat
  data : Nat
  dma : Nat
deriving Repr, DecidableEq

/-- `Registers::new` (src/nes/ppu.rs): all registers cleared. -/
def Registers.new : Registers :=
  { ctrl := 0x00, mask := 0x00, status := 0x00, oam_addr := 0x00,
    oam_data := 0x00, scroll := 0x00, addr := 0x00, data := 0x00, dma := 0x00 }

/-- The `PPU` struct (src/nes/ppu.rs, lines 97-108).  The render targets
(`canvas_main`, `pattern_tables`, `palettes`) are image buffers whose
pixel contents are modelled separately by the rendering functions below,
so they are not carried in this record. -/
structure PPU where
  regs : Registers
  cycle : Nat
  scanline : Nat
  frame_ready : Bool
  nmi : Bool
  addr_latch_set : Bool
  data_buffer : Nat
deriving Repr, DecidableEq

/-- `PPU::new` (src/nes/ppu.rs). -/
def PPU.new : PPU :=
  { regs := Registers.new, cycle := 0, scanline := 0, frame_ready := false,
    nmi := false, addr_latch_set := false, data_buffer := 0 }

/-- `PPU::set_status` (src/nes/ppu.rs, lines 142-148):
`status |= flag` when `val`, `status &= !flag` otherwise (the bitflags
complement keeps only defined bits, hence `statusAll ^^^ flag`). -/
def PPU.set_status (p : PPU) (flag : Nat) (val : Bool) : PPU :=
  if val then
    { p with regs := { p.regs with status := p.regs.status ||| flag } }
  else
    { p with regs := { p.regs with status := p.regs.status &&& (statusAll ^^^ flag) } }

/-- `PPU::get_status` (src/nes/ppu.rs): `status.contains(flag)`, i.e. all
bits of `flag` are present. -/
def PPU.get_status (p : PPU) (flag : Nat) : Bool :=
  p.regs.status &&& flag == flag

/-- `PPU::get_control` (src/nes/ppu.rs): `ctrl.contains(flag)`. -/
def PPU.get_control (p : PPU) (flag : Nat) : Bool :=
  p.regs.ctrl &&& flag == flag

/-- Counter-update part of `PPU::clock` (src/nes/ppu.rs, lines 180-190):
at cycle 340 wrap the cycle and advance the scanline (scanline 261 wraps
to 0 and sets `frame_ready`), otherwise just increment the cycle. -/
def PPU.clockCounters (p : PPU) : PPU :=
  if p.cycle == 340 then
    if p.scanline == 261 then
      { p with cycle := 0, scanline := 0, frame_ready := true }
    else
      { p with cycle := 0, scanline := p.scanline + 1 }
  else
    { p with cycle := p.cycle + 1 }

/-- Vblank/NMI part of `PPU::clock` (src/nes/ppu.rs, lines 192-201),
executed after the counter update. -/
def PPU.clockFlags (p : PPU) : PPU :=
  if p.scanline == 241 && p.cycle == 1 then
    let q := p.set_status VERTICAL_BLANK true
    if q.get_control ENABLE_NMI then { q with nmi := true } else q
  else if p.scanline == 261 && p.cycle == 1 then
    p.set_status VERTICAL_BLANK false
  else p

/-- `PPU::clock` (src/nes/ppu.rs, lines 179-202): counter update followed
by the (scanline, cycle)-keyed vblank/NMI side effects. -/
def PPU.clock (p : PPU) : PPU :=
  p.clockCounters.clockFlags

/-- `PPU::readb` (src/nes/ppu.rs, lines 205-238).  `mem` is the PPU-side
memory; the result is the byte read together with the updated PPU state.
Note that in the `0x2007` arm the source refills `data_buffer` from
`mem.readb_ppu(addr)` — `addr` being the register address passed in, not
`self.regs.addr` — and tests `addr > 0x3F00` on that same register
address. -/
def PPU.readb (p : PPU) (mem : Nat → Nat) (addr : Nat) : Nat × PPU :=
  if addr == 0x2002 then
    let status := p.regs.status
    let p := p.set_status VERTICAL_BLANK false
    let p := { p with addr_latch_set := false }
    (status, p)
  else if addr == 0x2004 then
    (0x00, p)
  else if addr == 0x2007 then
    let data := p.data_buffer
    let p := { p with data_buffer := mem addr }
    if addr > 0x3F00 then (p.data_buffer, p) else (data, p)
  else
    (0x00, p)

/-- `PPU::writeb` (src/nes/ppu.rs, lines 241-285).  Returns the updated
PPU together with the (possibly) updated PPU-side memory.  The `0x2007`
arm's address auto-increment is a wrapping `u16` addition, hence the
`% 65536`. -/
def PPU.writeb (p : PPU) (mem : Nat → Nat) (addr data : Nat) : PPU × (Nat → Nat) :=
  if addr == 0x2000 then
    ({ p with regs := { p.regs with ctrl := data } }, mem)
  else if addr == 0x2001 then
    ({ p with regs := { p.regs with mask := data } }, mem)
  else if addr == 0x2003 then
    (p, mem)
  else if addr == 0x2004 then
    (p, mem)
  else if addr == 0x2005 then
    (p, mem)
  else if addr == 0x2006 then
    let q :=
      if !p.addr_latch_set then
        { p with regs := { p.regs with addr := p.regs.addr &&& 0x00FF ||| data <<< 8 } }
      else
        { p with regs := { p.regs with addr := p.regs.addr &&& 0xFF00 ||| data } }
    ({ q with addr_latch_set := !p.addr_latch_set }, mem)
  else if addr == 0x2007 then
    let mem' := fun a => if a == p.regs.addr then data else mem a
    let inc := if p.get_control INCREMENT_MODE then 32 else 1
    ({ p with regs := { p.regs with addr := (p.regs.addr + inc) % 65536 } }, mem')
  else
    (p, mem)

/-! ## Mapper (src/nes/mappers.rs is not among the sources) -/

/-- Modelled from the spec: `src/nes/mappers.rs` (the `Mapper` trait and
`Mapper0`) is missing from the sources.  Spec §4.2: the simplest strategy
has "one PRG bank of 16 or 32 KiB, mirrored if only one 16 KiB bank is
present"; each operation takes a logical address and returns either a
physical offset or "unmapped" (`none`).  `Mapper0::new` is keyed by the
PRG/CHR chunk counts. -/
structure Mapper0 where
  prg_banks : Nat
  chr_banks : Nat
deriving Repr, DecidableEq

/-- Modelled from the spec: CPU-side read mapping of mapper 0.  The CPU
PRG window is 0x8000..=0xFFFF; with two 16 KiB banks the offset is
`addr & 0x7FFF`, with a single bank the window is mirrored,
`addr & 0x3FFF`.  Addresses outside the window are unmapped. -/
def Mapper0.map_read_addr (m : Mapper0) (addr : Nat) : Option Nat :=
  if 0x8000 ≤ addr ∧ addr ≤ 0xFFFF then
    some (addr &&& (if m.prg_banks > 1 then 0x7FFF else 0x3FFF))
  else
    none

/-- Modelled from the spec: CPU-side write mapping of mapper 0, same
window and mirroring as reads. -/
def Mapper0.map_write_addr (m : Mapper0) (addr : Nat) : Option Nat :=
  if 0x8000 ≤ addr ∧ addr ≤ 0xFFFF then
    some (addr &&& (if m.prg_banks > 1 then 0x7FFF else 0x3FFF))
  else
    none

/-! ## Cartridge (src/nes/cartridge.rs) -/

/-- Errors of `Cartridge::new`.  The source uses `failure::Error`; the
spec (§7) distinguishes fatal I/O load errors from the distinctly
classified "unsupported mapper" error carrying the numeric id. -/
inductive CartError where
  | ioError : CartError
  | unsupportedMapper : Nat → CartError
deriving Repr, DecidableEq

/-- The parsed 16-byte header (src/nes/cartridge.rs, lines 10-18). -/
structure Header where
  prg_rom_chunks : Nat
  chr_rom_chunks : Nat
  mapper1 : Nat
  mapper2 : Nat
  prg_ram_size : Nat
  tv1 : Nat
  tv2 : Nat
deriving Repr, DecidableEq

/-- `read_exact` on a byte source positioned at `pos`: succeeds with the
`n` bytes starting at `pos` exactly when the source holds at least
`pos + n` bytes, mirroring `std::io::Read::read_exact` (seeks may move
past the end, but a short read fails). -/
def readExact (rom : List Nat) (pos n : Nat) : Except CartError (List Nat) :=
  if pos + n ≤ rom.length then
    Except.ok ((rom.drop pos).take n)
  else
    Except.error CartError.ioError

/-- `Header::new` (src/nes/cartridge.rs, lines 22-48): skip the 4 magic
bytes, read the two ROM-size bytes (offsets 4-5) and the five flag bytes
(offsets 6-10); offsets 11-15 are skipped by a seek. -/
def Header.new (rom : List Nat) : Except CartError Header := do
  let rom_sizes ← readExact rom 4 2
  let flags ← readExact rom 6 5
  Except.ok
    { prg_rom_chunks := rom_sizes.getD 0 0
      chr_rom_chunks := rom_sizes.getD 1 0
      mapper1 := flags.getD 0 0
      mapper2 := flags.getD 1 0
      prg_ram_size := flags.getD 2 0
      tv1 := flags.getD 3 0
      tv2 := flags.getD 4 0 }

/-- `Header::has_trainer` (src/nes/cartridge.rs): bit 2 of `mapper1`. -/
def Header.has_trainer (h : Header) : Bool :=
  h.mapper1 &&& (1 <<< 2) != 0

/-- `Header::get_mapper_id` (src/nes/cartridge.rs, lines 54-58):
`hi = (mapper2 >> 4) << 4`, `lo = mapper1 >> 4`, result `hi | lo`. -/
def Header.get_mapper_id (h : Header) : Nat :=
  let hi := (h.mapper2 >>> 4) <<< 4
  let lo := h.mapper1 >>> 4
  hi ||| lo

/-- Nametable mirroring mode (src/nes/cartridge.rs, lines 71-75). -/
inductive MirrorMode where
  | HORIZONTAL : MirrorMode
  | VERTICAL : MirrorMode
deriving Repr, DecidableEq

/-- `Header::get_mirror_mode` (src/nes/cartridge.rs, lines 60-66): bit 0
of `mapper1`. -/
def Header.get_mirror_mode (h : Header) : MirrorMode :=
  if h.mapper1 &&& 0x01 == 0 then MirrorMode.HORIZONTAL else MirrorMode.VERTICAL

/-- The `Cartridge` struct (src/nes/cartridge.rs, lines 77-82).  Only
mapper 0 exists, so the boxed `dyn Mapper` is a `Mapper0`. -/
structure Cartridge where
  prg_rom : List Nat
  chr_rom : List Nat
  mapper : Mapper0
  mirror : MirrorMode
deriving Repr, DecidableEq

/-- `Cartridge::new` (src/nes/cartridge.rs, lines 85-115) over an
in-memory byte source: parse the header, seek to offset 16, skip a
512-byte trainer when flagged, read the PRG and CHR ROM blocks, then
select the mapper — id 0 yields `Mapper0::new`, any other id bails with
the "Mapper ... not supported" error carrying the id.  Note the mapper
check happens after both ROM reads, exactly as in the source. -/
def Cartridge.new (rom : List Nat) : Except CartError Cartridge := do
  let header ← Header.new rom
  let pos := 16
  let pos := if header.has_trainer then pos + 512 else pos
  let prg_rom ← readExact rom pos (header.prg_rom_chunks * 16384)
  let pos := pos + header.prg_rom_chunks * 16384
  let chr_rom ← readExact rom pos (header.chr_rom_chunks * 8192)
  let mapper ←
    match header.get_mapper_id with
    | 0 => Except.ok { prg_banks := header.prg_rom_chunks, chr_banks := header.chr_rom_chunks : Mapper0 }
    | id => Except.error (CartError.unsupportedMapper id)
  Except.ok
    { prg_rom := prg_rom
      chr_rom := chr_rom
      mapper := mapper
      mirror := header.get_mirror_mode }

/-- `Cartridge::dummy` (src/nes/cartridge.rs, lines 117-124): one zeroed
16 KiB PRG chunk, one zeroed 8 KiB CHR chunk, mapper 0. -/
def Cartridge.dummy (mirror : MirrorMode) : Cartridge :=
  { prg_rom := List.replicate 16384 0
    chr_rom := List.replicate 8192 0
    mapper := { prg_banks := 1, chr_banks := 1 }
    mirror := mirror }

/-- `Cartridge::readb` (src/nes/cartridge.rs, lines 126-131): ask the
mapper for a physical offset; `none` means the cartridge does not answer
the read.  (The Rust `self.prg_rom[mapped_addr]` index is modelled with
`getD`; mapper 0 only produces in-bounds offsets for sized ROMs.) -/
def Cartridge.readb (c : Cartridge) (addr : Nat) : Option Nat :=
  match c.mapper.map_read_addr addr with
  | some mapped => some (c.prg_rom.getD mapped 0)
  | none => none

/-- `Cartridge::writeb` (src/nes/cartridge.rs, lines 133-139): returns
the updated cartridge when the mapper maps the address, `none` when the
write was not handled (the source signals this with a `bool`). -/
def Cartridge.writeb (c : Cartridge) (addr data : Nat) : Option Cartridge :=
  match c.mapper.map_write_addr addr with
  | some mapped => some { c with prg_rom := c.prg_rom.set mapped data }
  | none => none

/-! ## Memory bus (src/nes/memory.rs) -/

/-- Address-range constants of src/nes/memory.rs, lines 7-12. -/
def RAM_ADDR_RANGE : List Nat := [0x0000, 0x1fff]

/-- Physical RAM window bound (src/nes/memory.rs). -/
def RAM_PHYS_RANGE : List Nat := [0x0000, 0x07ff]

/-- PPU register window (src/nes/memory.rs). -/
def PPU_ADDR_RANGE : List Nat := [0x2000, 0x3fff]

/-- Physical PPU register window bound (src/nes/memory.rs). -/
def PPU_PHYS_RANGE : List Nat := [0x2000, 0x2007]

/-- Cartridge window (src/nes/memory.rs). -/
def CART_ADDR_RANGE : List Nat := [0x4020, 0xffff]

/-- The `NESMemory` bus (src/nes/memory.rs, lines 15-19) without a
cartridge inserted (`cartridge: None`, the state after `NESMemory::new`):
2 KiB of RAM (as a function on physical indices 0..0x7ff) and the shared
PPU.  With no cartridge the source's `if let Some(cartridge)` branch is
skipped, which is the configuration the claims about RAM/PPU/default
routing quantify over. -/
structure NESMemory where
  ram : Nat → Nat
  ppu : PPU

/-- `NESMemory::new` (src/nes/memory.rs): zeroed RAM, given PPU. -/
def NESMemory.new (ppu : PPU) : NESMemory :=
  { ram := fun _ => 0, ppu := ppu }

/-- `NESMemory::readb` (src/nes/memory.rs, lines 50-65) with no
cartridge inserted.  `pmem` is the PPU-side memory handed to the PPU
register read (the source reaches the PPU through a `RefCell`; the state
passing makes the PPU update explicit).  Priority: RAM window with
`addr & 0x07ff` mirroring, then PPU window with `addr & 0x2007`
mirroring, otherwise the generic response `0x0000`. -/
def NESMemory.readb (m : NESMemory) (pmem : Nat → Nat) (addr : Nat) : Nat × NESMemory :=
  if 0x0000 ≤ addr ∧ addr ≤ 0x1fff then
    (m.ram (addr &&& 0x07ff), m)
  else if 0x2000 ≤ addr ∧ addr ≤ 0x3fff then
    let r := m.ppu.readb pmem (addr &&& 0x2007)
    (r.1, { m with ppu := r.2 })
  else
    (0x0000, m)

/-- `NESMemory::writeb` (src/nes/memory.rs, lines 67-81) with no
cartridge inserted.  The source checks the RAM and PPU windows with
unconditional (non-`else`) `if`s — both checks always run; the windows
are disjoint.  Returns the updated bus and PPU-side memory. -/
def NESMemory.writeb (m : NESMemory) (pmem : Nat → Nat) (addr data : Nat) :
    NESMemory × (Nat → Nat) :=
  let m :=
    if 0x0000 ≤ addr ∧ addr ≤ 0x1fff then
      { m with ram := fun i => if i == (addr &&& 0x07ff) then data else m.ram i }
    else m
  if 0x2000 ≤ addr ∧ addr ≤ 0x3fff then
    let r := m.ppu.writeb pmem (addr &&& 0x2007) data
    ({ m with ppu := r.1 }, r.2)
  else
    (m, pmem)

/-! ## PPU rendering (src/nes/ppu.rs, pattern tables and palettes) -/

/-- `PPU::get_color_from_ram` (src/nes/ppu.rs, lines 289-298)
parametrised by the 64-entry hardware color table `PALETTE`
(src/nes/ppu/palette.rs is not among the sources, so colors stay
abstract): look up the palette index at
`0x3F00 + (palette_id << 2) + pixel`, mask it to 6 bits, and resolve it
through the color table. -/
def get_color_from_ram (PALETTE : Nat → Nat) (mem : Nat → Nat)
    (palette_id pixel : Nat) : Nat :=
  let palette_idx_addr := 0x3F00 + (palette_id <<< 2) + pixel
  let palette_idx := mem palette_idx_addr &&& 0x3F
  PALETTE palette_idx

/-- Per-pixel 2-bit color value of `PPU::get_pattern_table`
(src/nes/ppu.rs, lines 324-356).  For tile `(x, y)`, pixel row `row` and
loop iteration `col` (the pixel lands at image column `x*8 + (7-col)`):
the source reads `tile_lsb = mem[tile_addr]` and
`tile_msb = mem[tile_addr + 8]`, shifts both right once per iteration,
and computes `pixel = (tile_lsb & 0x01) + (tile_msb & 0x01)` — after
`col` shifts the operands are `tile_lsb >> col` and `tile_msb >> col`. -/
def patternPixelValue (mem : Nat → Nat) (index x y row col : Nat) : Nat :=
  let tile_offset_b := y * 256 + x * 16
  let tile_addr := index * 0x1000 + tile_offset_b + row
  let tile_lsb := mem tile_addr
  let tile_msb := mem (tile_addr + 8)
  ((tile_lsb >>> col) &&& 0x01) + ((tile_msb >>> col) &&& 0x01)

/-- Color written by `PPU::get_pattern_table` at the pixel of tile
`(x, y)`, row `row`, loop iteration `col`: the 2-bit value resolved
through `get_color_from_ram` for the requested palette. -/
def patternTablePixel (PALETTE : Nat → Nat) (mem : Nat → Nat)
    (index palette_id x y row col : Nat) : Nat :=
  get_color_from_ram PALETTE mem palette_id (patternPixelValue mem index x y row col)

/-! ## CPU instruction table (src/nes/cpu/instructions.rs) -/

/-- The twelve addressing modes (src/nes/cpu/instructions.rs, lines
8-21). -/
inductive AddrMode where
  | IMP | IMM | ZP0 | ZPX | ZPY | REL | ABS | ABX | ABY | IND | IZX | IZY
deriving Repr, DecidableEq, BEq

/-- The operation mnemonics, including the undocumented opcodes
(src/nes/cpu/instructions.rs, lines 31-107). -/
inductive Operation where
  | ADC | AHX | ALR | ANC | AND | ARR | ASL | AXS | BCC | BCS | BEQ | BIT
  | BMI | BNE | BPL | BRK | BVC | BVS | CLC | CLD | CLI | CLV | CMP | CPX
  | CPY | DCP | DEC | DEX | DEY | EOR | INC | INX | INY | ISB | JMP | JSR
  | KIL | LAS | LAX | LDA | LDX | LDY | LSR | NOP | ORA | PHA | PHP | PLA
  | PLP | RLA | ROL | ROR | RRA | RTI | RTS | SAX | SBC | SEC | SED | SEI
  | SHX | SHY | SLO | SRE | STA | STX | STY | TAS | TAX | TAY | TSX | TXA
  | TXS | TYA | XAA
deriving Repr, DecidableEq, BEq

/-- The `Instruction` record (src/nes/cpu/instructions.rs, lines
390-399); `cycles` is the `[base, extra]` pair, extra being the
additional cycle on page cross. -/
structure Instruction where
  opcode : Nat
  addr_mode : AddrMode
  operation : Operation
  cycles : Nat × Nat
deriving Repr, DecidableEq, BEq

/-- The static `INSTRUCTION_SET` map (src/nes/cpu/instructions.rs, lines
115-388), transcribed entry for entry as an association list keyed by
the opcode byte; each entry is `Instruction.mk opcode addr_mode
operation (base, extra)`. -/
def INSTRUCTION_SET : List (Nat × Instruction) := [
  (0x00, Instruction.mk 0x00 AddrMode.IMP Operation.BRK (7, 0)),
  (0x01, Instruction.mk 0x01 AddrMode.IZX Operation.ORA (6, 0)),
  (0x02, Instruction.mk 0x02 AddrMode.IMP Operation.KIL (1, 0)),
  (0x03, Instruction.mk 0x03 AddrMode.IZX Operation.SLO (8, 0)),
  (0x04, Instruction.mk 0x04 AddrMode.ZP0 Operation.NOP (3, 0)),
  (0x05, Instruction.mk 0x05 AddrMode.ZP0 Operation.ORA (3, 0)),
  (0x06, Instruction.mk 0x06 AddrMode.ZP0 Operation.ASL (5, 0)),
  (0x07, Instruction.mk 0x07 AddrMode.ZP0 Operation.SLO (5, 0)),
  (0x08, Instruction.mk 0x08 AddrMode.IMP Operation.PHP (3, 0)),
  (0x09, Instruction.mk 0x09 AddrMode.IMM Operation.ORA (2, 0)),
  (0x0a, Instruction.mk 0x0a AddrMode.IMP Operation.ASL (2, 0)),
  (0x0b, Instruction.mk 0x0b AddrMode.IMM Operation.ANC (2, 0)),
  (0x0c, Instruction.mk 0x0c AddrMode.ABS Operation.NOP (4, 0)),
  (0x0d, Instruction.mk 0x0d AddrMode.ABS Operation.ORA (4, 0)),
  (0x0e, Instruction.mk 0x0e AddrMode.ABS Operation.ASL (6, 0)),
  (0x0f, Instruction.mk 0x0f AddrMode.ABS Operation.SLO (6, 0)),
  (0x10, Instruction.mk 0x10 AddrMode.REL Operation.BPL (2, 1)),
  (0x11, Instruction.mk 0x11 AddrMode.IZY Operation.ORA (5, 1)),
  (0x12, Instruction.mk 0x12 AddrMode.IMP Operation.KIL (1, 0)),
  (0x13, Instruction.mk 0x13 AddrMode.IZY Operation.SLO (8, 0)),
  (0x14, Instruction.mk 0x14 AddrMode.ZPX Operation.NOP (4, 0)),
  (0x15, Instruction.mk 0x15 AddrMode.ZPX Operation.ORA (4, 0)),
  (0x16, Instruction.mk 0x16 AddrMode.ZPX Operation.ASL (6, 0)),
  (0x17, Instruction.mk 0x17 AddrMode.ZPX Operation.SLO (6, 0)),
  (0x18, Instruction.mk 0x18 AddrMode.IMP Operation.CLC (2, 0)),
  (0x19, Instruction.mk 0x19 AddrMode.ABY Operation.ORA (4, 1)),
  (0x1a, Instruction.mk 0x1a AddrMode.IMP Operation.NOP (2, 0)),
  (0x1b, Instruction.mk 0x1b AddrMode.ABY Operation.SLO (7, 0)),
  (0x1c, Instruction.mk 0x1c AddrMode.ABX Operation.NOP (4, 1)),
  (0x1d, Instruction.mk 0x1d AddrMode.ABX Operation.ORA (4, 1)),
  (0x1e, Instruction.mk 0x1e AddrMode.ABX Operation.ASL (7, 0)),
  (0x1f, Instruction.mk 0x1f AddrMode.ABX Operation.SLO (7, 0)),
  (0x20, Instruction.mk 0x20 AddrMode.ABS Operation.JSR (6, 0)),
  (0x21, Instruction.mk 0x21 AddrMode.IZX Operation.AND (6, 0)),
  (0x22, Instruction.mk 0x22 AddrMode.IMP Operation.KIL (1, 0)),
  (0x23, Instruction.mk 0x23 AddrMode.IZX Operation.RLA (8, 0)),
  (0x24, Instruction.mk 0x24 AddrMode.ZP0 Operation.BIT (3, 0)),
  (0x25, Instruction.mk 0x25 AddrMode.ZP0 Operation.AND (3, 0)),
  (0x26, Instruction.mk 0x26 AddrMode.ZP0 Operation.ROL (5, 0)),
  (0x27, Instruction.mk 0x27 AddrMode.ZP0 Operation.RLA (5, 0)),
  (0x28, Instruction.mk 0x28 AddrMode.IMP Operation.PLP (4, 0)),
  (0x29, Instruction.mk 0x29 AddrMode.IMM Operation.AND (2, 0)),
  (0x2a, Instruction.mk 0x2a AddrMode.IMP Operation.ROL (2, 0)),
  (0x2b, Instruction.mk 0x2b AddrMode.IMM Operation.ANC (2, 0)),
  (0x2c, Instruction.mk 0x2c AddrMode.ABS Operation.BIT (4, 0)),
  (0x2d, Instruction.mk 0x2d AddrMode.ABS Operation.AND (4, 0)),
  (0x2e, Instruction.mk 0x2e AddrMode.ABS Operation.ROL (6, 0)),
  (0x2f, Instruction.mk 0x2f AddrMode.ABS Operation.RLA (6, 0)),
  (0x30, Instruction.mk 0x30 AddrMode.REL Operation.BMI (2, 1)),
  (0x31, Instruction.mk 0x31 AddrMode.IZY Operation.AND (5, 1)),
  (0x32, Instruction.mk 0x32 AddrMode.IMP Operation.KIL (1, 0)),
  (0x33, Instruction.mk 0x33 AddrMode.IZY Operation.RLA (8, 0)),
  (0x34, Instruction.mk 0x34 AddrMode.ZPX Operation.NOP (4, 0)),
  (0x35, Instruction.mk 0x35 AddrMode.ZPX Operation.AND (4, 0)),
  (0x36, Instruction.mk 0x36 AddrMode.ZPX Operation.ROL (6, 0)),
  (0x37, Instruction.mk 0x37 AddrMode.ZPX Operation.RLA (6, 0)),
  (0x38, Instruction.mk 0x38 AddrMode.IMP Operation.SEC (2, 0)),
  (0x39, Instruction.mk 0x39 AddrMode.ABY Operation.AND (4, 1)),
  (0x3a, Instruction.mk 0x3a AddrMode.IMP Operation.NOP (2, 0)),
  (0x3b, Instruction.mk 0x3b AddrMode.ABY Operation.RLA (7, 0)),
  (0x3c, Instruction.mk 0x3c AddrMode.ABX Operation.NOP (4, 1)),
  (0x3d, Instruction.mk 0x3d AddrMode.ABX Operation.AND (4, 1)),
  (0x3e, Instruction.mk 0x3e AddrMode.ABX Operation.ROL (7, 0)),
  (0x3f, Instruction.mk 0x3f AddrMode.ABX Operation.RLA (7, 0)),
  (0x40, Instruction.mk 0x40 AddrMode.IMP Operation.RTI (6, 0)),
  (0x41, Instruction.mk 0x41 AddrMode.IZX Operation.EOR (6, 0)),
  (0x42, Instruction.mk 0x42 AddrMode.IMP Operation.KIL (1, 0)),
  (0x43, Instruction.mk 0x43 AddrMode.IZX Operation.SRE (8, 0)),
  (0x44, Instruction.mk 0x44 AddrMode.ZP0 Operation.NOP (3, 0)),
  (0x45, Instruction.mk 0x45 AddrMode.ZP0 Operation.EOR (3, 0)),
  (0x46, Instruction.mk 0x46 AddrMode.ZP0 Operation.LSR (5, 0)),
  (0x47, Instruction.mk 0x47 AddrMode.ZP0 Operation.SRE (5, 0)),
  (0x48, Instruction.mk 0x48 AddrMode.IMP Operation.PHA (3, 0)),
  (0x49, Instruction.mk 0x49 AddrMode.IMM Operation.EOR (2, 0)),
  (0x4a, Instruction.mk 0x4a AddrMode.IMP Operation.LSR (2, 0)),
  (0x4b, Instruction.mk 0x4b AddrMode.IMM Operation.ALR (2, 0)),
  (0x4c, Instruction.mk 0x4c AddrMode.ABS Operation.JMP (3, 0)),
  (0x4d, Instruction.mk 0x4d AddrMode.ABS Operation.EOR (4, 0)),
  (0x4e, Instruction.mk 0x4e AddrMode.ABS Operation.LSR (6, 0)),
  (0x4f, Instruction.mk 0x4f AddrMode.ABS Operation.SRE (6, 0)),
  (0x50, Instruction.mk 0x50 AddrMode.REL Operation.BVC (2, 1)),
  (0x51, Instruction.mk 0x51 AddrMode.IZY Operation.EOR (5, 1)),
  (0x52, Instruction.mk 0x52 AddrMode.IMP Operation.KIL (1, 0)),
  (0x53, Instruction.mk 0x53 AddrMode.IZY Operation.SRE (8, 0)),
  (0x54, Instruction.mk 0x54 AddrMode.ZPX Operation.NOP (4, 0)),
  (0x55, Instruction.mk 0x55 AddrMode.ZPX Operation.EOR (4, 0)),
  (0x56, Instruction.mk 0x56 AddrMode.ZPX Operation.LSR (6, 0)),
  (0x57, Instruction.mk 0x57 AddrMode.ZPX Operation.SRE (6, 0)),
  (0x58, Instruction.mk 0x58 AddrMode.IMP Operation.CLI (2, 0)),
  (0x59, Instruction.mk 0x59 AddrMode.ABY Operation.EOR (4, 1)),
  (0x5a, Instruction.mk 0x5a AddrMode.IMP Operation.NOP (2, 0)),
  (0x5b, Instruction.mk 0x5b AddrMode.ABY Operation.SRE (7, 0)),
  (0x5c, Instruction.mk 0x5c AddrMode.ABX Operation.NOP (4, 1)),
  (0x5d, Instruction.mk 0x5d AddrMode.ABX Operation.EOR (4, 1)),
  (0x5e, Instruction.mk 0x5e AddrMode.ABX Operation.LSR (7, 0)),
  (0x5f, Instruction.mk 0x5f AddrMode.ABX Operation.SRE (7, 0)),
  (0x60, Instruction.mk 0x60 AddrMode.IMP Operation.RTS (6, 0)),
  (0x61, Instruction.mk 0x61 AddrMode.IZX Operation.ADC (6, 0)),
  (0x62, Instruction.mk 0x62 AddrMode.IMP Operation.KIL (1, 0)),
  (0x63, Instruction.mk 0x63 AddrMode.IZX Operation.RRA (8, 0)),
  (0x64, Instruction.mk 0x64 AddrMode.ZP0 Operation.NOP (3, 0)),
  (0x65, Instruction.mk 0x65 AddrMode.ZP0 Operation.ADC (3, 0)),
  (0x66, Instruction.mk 0x66 AddrMode.ZP0 Operation.ROR (5, 0)),
  (0x67, Instruction.mk 0x67 AddrMode.ZP0 Operation.RRA (5, 0)),
  (0x68, Instruction.mk 0x68 AddrMode.IMP Operation.PLA (4, 0)),
  (0x69, Instruction.mk 0x69 AddrMode.IMM Operation.ADC (2, 0)),
  (0x6a, Instruction.mk 0x6a AddrMode.IMP Operation.ROR (2, 0)),
  (0x6b, Instruction.mk 0x6b AddrMode.IMM Operation.ARR (2, 0)),
  (0x6c, Instruction.mk 0x6c AddrMode.IND Operation.JMP (5, 0)),
  (0x6d, Instruction.mk 0x6d AddrMode.ABS Operation.ADC (4, 0)),
  (0x6e, Instruction.mk 0x6e AddrMode.ABS Operation.ROR (6, 0)),
  (0x6f, Instruction.mk 0x6f AddrMode.ABS Operation.RRA (6, 0)),
  (0x70, Instruction.mk 0x70 AddrMode.REL Operation.BVS (2, 1)),
  (0x71, Instruction.mk 0x71 AddrMode.IZY Operation.ADC (5, 1)),
  (0x72, Instruction.mk 0x72 AddrMode.IMP Operation.KIL (1, 0)),
  (0x73, Instruction.mk 0x73 AddrMode.IZY Operation.RRA (8, 0)),
  (0x74, Instruction.mk 0x74 AddrMode.ZPX Operation.NOP (4, 0)),
  (0x75, Instruction.mk 0x75 AddrMode.ZPX Operation.ADC (4, 0)),
  (0x76, Instruction.mk 0x76 AddrMode.ZPX Operation.ROR (6, 0)),
  (0x77, Instruction.mk 0x77 AddrMode.ZPX Operation.RRA (6, 0)),
  (0x78, Instruction.mk 0x78 AddrMode.IMP Operation.SEI (2, 0)),
  (0x79, Instruction.mk 0x79 AddrMode.ABY Operation.ADC (4, 1)),
  (0x7a, Instruction.mk 0x7a AddrMode.IMP Operation.NOP (2, 0)),
  (0x7b, Instruction.mk 0x7b AddrMode.ABY Operation.RRA (7, 0)),
  (0x7c, Instruction.mk 0x7c AddrMode.ABX Operation.NOP (4, 1)),
  (0x7d, Instruction.mk 0x7d AddrMode.ABX Operation.ADC (4, 1)),
  (0x7e, Instruction.mk 0x7e AddrMode.ABX Operation.ROR (7, 0)),
  (0x7f, Instruction.mk 0x7f AddrMode.ABX Operation.RRA (7, 0)),
  (0x80, Instruction.mk 0x80 AddrMode.IMM Operation.NOP (2, 0)),
  (0x81, Instruction.mk 0x81 AddrMode.IZX Operation.STA (6, 0)),
  (0x82, Instruction.mk 0x82 AddrMode.IMM Operation.NOP (2, 0)),
  (0x83, Instruction.mk 0x83 AddrMode.IZX Operation.SAX (6, 0)),
  (0x84, Instruction.mk 0x84 AddrMode.ZP0 Operation.STY (3, 0)),
  (0x85, Instruction.mk 0x85 AddrMode.ZP0 Operation.STA (3, 0)),
  (0x86, Instruction.mk 0x86 AddrMode.ZP0 Operation.STX (3, 0)),
  (0x87, Instruction.mk 0x87 AddrMode.ZP0 Operation.SAX (3, 0)),
  (0x88, Instruction.mk 0x88 AddrMode.IMP Operation.DEY (2, 0)),
  (0x89, Instruction.mk 0x89 AddrMode.IMM Operation.NOP (2, 0)),
  (0x8a, Instruction.mk 0x8a AddrMode.IMP Operation.TXA (2, 0)),
  (0x8b, Instruction.mk 0x8b AddrMode.IMM Operation.XAA (2, 0)),
  (0x8c, Instruction.mk 0x8c AddrMode.ABS Operation.STY (4, 0)),
  (0x8d, Instruction.mk 0x8d AddrMode.ABS Operation.STA (4, 0)),
  (0x8e, Instruction.mk 0x8e AddrMode.ABS Operation.STX (4, 0)),
  (0x8f, Instruction.mk 0x8f AddrMode.ABS Operation.SAX (4, 0)),
  (0x90, Instruction.mk 0x90 AddrMode.REL Operation.BCC (2, 1)),
  (0x91, Instruction.mk 0x91 AddrMode.IZY Operation.STA (6, 0)),
  (0x92, Instruction.mk 0x92 AddrMode.IMP Operation.KIL (1, 0)),
  (0x93, Instruction.mk 0x93 AddrMode.IZY Operation.AHX (6, 0)),
  (0x94, Instruction.mk 0x94 AddrMode.ZPX Operation.STY (4, 0)),
  (0x95, Instruction.mk 0x95 AddrMode.ZPX Operation.STA (4, 0)),
  (0x96, Instruction.mk 0x96 AddrMode.ZPY Operation.STX (4, 0)),
  (0x97, Instruction.mk 0x97 AddrMode.ZPY Operation.SAX (4, 0)),
  (0x98, Instruction.mk 0x98 AddrMode.IMP Operation.TYA (2, 0)),
  (0x99, Instruction.mk 0x99 AddrMode.ABY Operation.STA (5, 0)),
  (0x9a, Instruction.mk 0x9a AddrMode.IMP Operation.TXS (2, 0)),
  (0x9b, Instruction.mk 0x9b AddrMode.ABY Operation.TAS (5, 0)),
  (0x9c, Instruction.mk 0x9c AddrMode.ABX Operation.SHY (5, 0)),
  (0x9d, Instruction.mk 0x9d AddrMode.ABX Operation.STA (5, 0)),
  (0x9e, Instruction.mk 0x9e AddrMode.ABY Operation.SHX (5, 0)),
  (0x9f, Instruction.mk 0x9f AddrMode.ABY Operation.AHX (5, 0)),
  (0xa0, Instruction.mk 0xa0 AddrMode.IMM Operation.LDY (2, 0)),
  (0xa1, Instruction.mk 0xa1 AddrMode.IZX Operation.LDA (6, 0)),
  (0xa2, Instruction.mk 0xa2 AddrMode.IMM Operation.LDX (2, 0)),
  (0xa3, Instruction.mk 0xa3 AddrMode.IZX Operation.LAX (6, 0)),
  (0xa4, Instruction.mk 0xa4 AddrMode.ZP0 Operation.LDY (3, 0)),
  (0xa5, Instruction.mk 0xa5 AddrMode.ZP0 Operation.LDA (3, 0)),
  (0xa6, Instruction.mk 0xa6 AddrMode.ZP0 Operation.LDX (3, 0)),
  (0xa7, Instruction.mk 0xa7 AddrMode.ZP0 Operation.LAX (3, 0)),
  (0xa8, Instruction.mk 0xa8 AddrMode.IMP Operation.TAY (2, 0)),
  (0xa9, Instruction.mk 0xa9 AddrMode.IMM Operation.LDA (2, 0)),
  (0xaa, Instruction.mk 0xaa AddrMode.IMP Operation.TAX (2, 0)),
  (0xab, Instruction.mk 0xab AddrMode.IMM Operation.LAX (2, 0)),
  (0xac, Instruction.mk 0xac AddrMode.ABS Operation.LDY (4, 0)),
  (0xad, Instruction.mk 0xad AddrMode.ABS Operation.LDA (4, 0)),
  (0xae, Instruction.mk 0xae AddrMode.ABS Operation.LDX (4, 0)),
  (0xaf, Instruction.mk 0xaf AddrMode.ABS Operation.LAX (4, 0)),
  (0xb0, Instruction.mk 0xb0 AddrMode.REL Operation.BCS (2, 1)),
  (0xb1, Instruction.mk 0xb1 AddrMode.IZY Operation.LDA (5, 1)),
  (0xb2, Instruction.mk 0xb2 AddrMode.IMP Operation.KIL (1, 0)),
  (0xb3, Instruction.mk 0xb3 AddrMode.IZY Operation.LAX (5, 1)),
  (0xb4, Instruction.mk 0xb4 AddrMode.ZPX Operation.LDY (4, 0)),
  (0xb5, Instruction.mk 0xb5 AddrMode.ZPX Operation.LDA (4, 0)),
  (0xb6, Instruction.mk 0xb6 AddrMode.ZPY Operation.LDX (4, 0)),
  (0xb7, Instruction.mk 0xb7 AddrMode.ZPY Operation.LAX (4, 0)),
  (0xb8, Instruction.mk 0xb8 AddrMode.IMP Operation.CLV (2, 0)),
  (0xb9, Instruction.mk 0xb9 AddrMode.ABY Operation.LDA (4, 1)),
  (0xba, Instruction.mk 0xba AddrMode.IMP Operation.TSX (2, 0)),
  (0xbb, Instruction.mk 0xbb AddrMode.ABY Operation.LAS (4, 1)),
  (0xbc, Instruction.mk 0xbc AddrMode.ABX Operation.LDY (4, 1)),
  (0xbd, Instruction.mk 0xbd AddrMode.ABX Operation.LDA (4, 1)),
  (0xbe, Instruction.mk 0xbe AddrMode.ABY Operation.LDX (4, 1)),
  (0xbf, Instruction.mk 0xbf AddrMode.ABY Operation.LAX (4, 1)),
  (0xc0, Instruction.mk 0xc0 AddrMode.IMM Operation.CPY (2, 0)),
  (0xc1, Instruction.mk 0xc1 AddrMode.IZX Operation.CMP (6, 0)),
  (0xc2, Instruction.mk 0xc2 AddrMode.IMM Operation.NOP (2, 0)),
  (0xc3, Instruction.mk 0xc3 AddrMode.IZX Operation.DCP (8, 0)),
  (0xc4, Instruction.mk 0xc4 AddrMode.ZP0 Operation.CPY (3, 0)),
  (0xc5, Instruction.mk 0xc5 AddrMode.ZP0 Operation.CMP (3, 0)),
  (0xc6, Instruction.mk 0xc6 AddrMode.ZP0 Operation.DEC (5, 0)),
  (0xc7, Instruction.mk 0xc7 AddrMode.ZP0 Operation.DCP (5, 0)),
  (0xc8, Instruction.mk 0xc8 AddrMode.IMP Operation.INY (2, 0)),
  (0xc9, Instruction.mk 0xc9 AddrMode.IMM Operation.CMP (2, 0)),
  (0xca, Instruction.mk 0xca AddrMode.IMP Operation.DEX (2, 0)),
  (0xcb, Instruction.mk 0xcb AddrMode.IMM Operation.AXS (1, 0)),
  (0xcc, Instruction.mk 0xcc AddrMode.ABS Operation.CPY (4, 0)),
  (0xcd, Instruction.mk 0xcd AddrMode.ABS Operation.CMP (4, 0)),
  (0xce, Instruction.mk 0xce AddrMode.ABS Operation.DEC (6, 0)),
  (0xcf, Instruction.mk 0xcf AddrMode.ABS Operation.DCP (6, 0)),
  (0xd0, Instruction.mk 0xd0 AddrMode.REL Operation.BNE (2, 1)),
  (0xd1, Instruction.mk 0xd1 AddrMode.IZY Operation.CMP (5, 1)),
  (0xd2, Instruction.mk 0xd2 AddrMode.IMP Operation.KIL (1, 0)),
  (0xd3, Instruction.mk 0xd3 AddrMode.IZY Operation.DCP (8, 0)),
  (0xd4, Instruction.mk 0xd4 AddrMode.ZPX Operation.NOP (4, 0)),
  (0xd5, Instruction.mk 0xd5 AddrMode.ZPX Operation.CMP (4, 0)),
  (0xd6, Instruction.mk 0xd6 AddrMode.ZPX Operation.DEC (6, 0)),
  (0xd7, Instruction.mk 0xd7 AddrMode.ZPX Operation.DCP (6, 1)),
  (0xd8, Instruction.mk 0xd8 AddrMode.IMP Operation.CLD (2, 0)),
  (0xd9, Instruction.mk 0xd9 AddrMode.ABY Operation.CMP (4, 0)),
  (0xda, Instruction.mk 0xda AddrMode.IMP Operation.NOP (2, 0)),
  (0xdb, Instruction.mk 0xdb AddrMode.ABY Operation.DCP (7, 0)),
  (0xdc, Instruction.mk 0xdc AddrMode.ABX Operation.NOP (4, 1)),
  (0xdd, Instruction.mk 0xdd AddrMode.ABX Operation.CMP (4, 1)),
  (0xde, Instruction.mk 0xde AddrMode.ABX Operation.DEC (7, 0)),
  (0xdf, Instruction.mk 0xdf AddrMode.ABX Operation.DCP (7, 0)),
  (0xe0, Instruction.mk 0xe0 AddrMode.IMM Operation.CPX (2, 0)),
  (0xe1, Instruction.mk 0xe1 AddrMode.IZX Operation.SBC (6, 0)),
  (0xe2, Instruction.mk 0xe2 AddrMode.IMM Operation.NOP (2, 0)),
  (0xe3, Instruction.mk 0xe3 AddrMode.IZX Operation.ISB (8, 0)),
  (0xe4, Instruction.mk 0xe4 AddrMode.ZP0 Operation.CPX (3, 0)),
  (0xe5, Instruction.mk 0xe5 AddrMode.ZP0 Operation.SBC (3, 0)),
  (0xe6, Instruction.mk 0xe6 AddrMode.ZP0 Operation.INC (5, 0)),
  (0xe7, Instruction.mk 0xe7 AddrMode.ZP0 Operation.ISB (5, 0)),
  (0xe8, Instruction.mk 0xe8 AddrMode.IMP Operation.INX (2, 0)),
  (0xe9, Instruction.mk 0xe9 AddrMode.IMM Operation.SBC (2, 0)),
  (0xea, Instruction.mk 0xea AddrMode.IMP Operation.NOP (2, 0)),
  (0xeb, Instruction.mk 0xeb AddrMode.IMM Operation.SBC (2, 0)),
  (0xec, Instruction.mk 0xec AddrMode.ABS Operation.CPX (4, 0)),
  (0xed, Instruction.mk 0xed AddrMode.ABS Operation.SBC (4, 0)),
  (0xee, Instruction.mk 0xee AddrMode.ABS Operation.INC (6, 0)),
  (0xef, Instruction.mk 0xef AddrMode.ABS Operation.ISB (6, 0)),
  (0xf0, Instruction.mk 0xf0 AddrMode.REL Operation.BEQ (2, 1)),
  (0xf1, Instruction.mk 0xf1 AddrMode.IZY Operation.SBC (5, 1)),
  (0xf2, Instruction.mk 0xf2 AddrMode.IMP Operation.KIL (1, 0)),
  (0xf3, Instruction.mk 0xf3 AddrMode.IZY Operation.ISB (8, 0)),
  (0xf4, Instruction.mk 0xf4 AddrMode.ZPX Operation.NOP (4, 0)),
  (0xf5, Instruction.mk 0xf5 AddrMode.ZPX Operation.SBC (4, 0)),
  (0xf6, Instruction.mk 0xf6 AddrMode.ZPX Operation.INC (6, 0)),
  (0xf7, Instruction.mk 0xf7 AddrMode.ZPX Operation.ISB (6, 0)),
  (0xf8, Instruction.mk 0xf8 AddrMode.IMP Operation.SED (2, 0)),
  (0xf9, Instruction.mk 0xf9 AddrMode.ABY Operation.SBC (4, 1)),
  (0xfa, Instruction.mk 0xfa AddrMode.IMP Operation.NOP (2, 0)),
  (0xfb, Instruction.mk 0xfb AddrMode.ABY Operation.ISB (7, 0)),
  (0xfc, Instruction.mk 0xfc AddrMode.ABX Operation.NOP (4, 1)),
  (0xfd, Instruction.mk 0xfd AddrMode.ABX Operation.SBC (4, 1)),
  (0xfe, Instruction.mk 0xfe AddrMode.ABX Operation.INC (7, 0)),
  (0xff, Instruction.mk 0xff AddrMode.ABX Operation.ISB (7, 0))]

/-- `Instruction::decode_op` (src/nes/cpu/instructions.rs, lines
402-405): look the opcode up in the table; the source `.expect`s on a
missing entry (a panic), so the fallible lookup is the embedding. -/
def Instruction.decode_op (opcode : Nat) : Option Instruction :=
  INSTRUCTION_SET.lookup opcode

/-! ## Claims -/

/-- Concrete PPU-side memory for the C1 failing input: byte 0x55 at the
VRAM address 0x3F00 (palette space), byte 0xAA at the nametable-space
address 0x2007 (which is also the register address the CPU used). -/
def c1mem : Nat → Nat := fun a =>
  if a == 0x3F00 then 0x55 else if a == 0x2007 then 0xAA else 0x00

/-- PPU state for the C1 failing input: VRAM address register 0x3F00
(palette space, ≥ 0x3F00), read buffer holding 0x10. -/
def c1ppu : PPU :=
  { PPU.new with regs := { Registers.new with addr := 0x3F00 }, data_buffer := 0x10 }

/-- C1, failing input.  The claim says a 0x2007 read refills the read
buffer from PPU-side memory at the current VRAM address (here 0x3F00,
holding 0x55) and, the VRAM address being ≥ 0x3F00, returns the fresh
byte 0x55 immediately.  The code instead returns the old buffer byte
0x10 and refills the buffer from PPU-side memory at the *register*
address 0x2007 (getting 0xAA): `PPU::readb` uses its `addr` argument,
not `self.regs.addr`, and its palette test `addr > 0x3F00` examines the
register address, so the bypass can never trigger. -/
theorem c1_data_read_ignores_vram_addr :
    c1ppu.regs.addr = 0x3F00 ∧
    c1mem c1ppu.regs.addr = 0x55 ∧
    (c1ppu.readb c1mem 0x2007).1 = 0x10 ∧
    (c1ppu.readb c1mem 0x2007).2.data_buffer = c1mem 0x2007 ∧
    (c1ppu.readb c1mem 0x2007).2.data_buffer = 0xAA := by
  refine ⟨rfl, rfl, by decide, by decide, by decide⟩

/-- C2, failing input.  With the dummy cartridge (mapper 0, one PRG
bank) inserted, the bus address 0x4020 lies in the cartridge window
`0x4020..=0xFFFF` but `Cartridge::readb` reports it unmapped (`none`):
mapper 0 maps only `0x8000..=0xFFFF`.  The claim (and spec §4.3/§7) says
the bus then falls through to the RAM/PPU/default handling, returning
the default 0x00 — the last conjunct shows that fall-through result.
The source `NESMemory::readb` instead ends with
`return cartridge.readb(addr)` inside the cartridge branch: it returns
the cartridge's `Option<Byte>` unconditionally (which does not even
typecheck against the `-> Byte` signature of the `Memory` trait) and
never falls through on `None`. -/
theorem c2_unmapped_cartridge_read_has_no_fallthrough :
    (0x4020 ≤ (0x4020 : Nat) ∧ (0x4020 : Nat) ≤ 0xffff) ∧
    Cartridge.readb (Cartridge.dummy MirrorMode.HORIZONTAL) 0x4020 = none ∧
    ((NESMemory.new PPU.new).readb (fun _ => 0x00) 0x4020).1 = 0x00 := by
  refine ⟨by decide, rfl, rfl⟩

/-- Concrete PPU-side memory for the C3 failing input: the tile-0 low
bitplane byte (address 0) is 0x00, the high bitplane byte (address 8)
is 0x01. -/
def c3mem : Nat → Nat := fun a => if a == 8 then 0x01 else 0x00

/-- C3, failing input.  For tile (0,0), row 0, first loop iteration
(rightmost pixel column): the low-plane bit is 0 and the high-plane bit
is 1, so the claim's combination (low worth 1, high worth 2) gives color
index 2.  The code computes `(tile_lsb & 0x01) + (tile_msb & 0x01)`,
which weighs the high plane by 1 and yields 1 — and, as the last
conjunct shows, that sum can never reach the claimed index 3, although
the code's own comment says the value is "between 0-3". -/
theorem c3_pattern_pixel_weighs_high_plane_wrong :
    c3mem 0 = 0x00 ∧
    c3mem 8 = 0x01 ∧
    patternPixelValue c3mem 0 0 0 0 0 = 1 ∧
    (∀ mem index x y row col, patternPixelValue mem index x y row col ≤ 2) := by
  refine ⟨rfl, rfl, by decide, ?_⟩
  intro mem index x y row col
  have h1 : ((mem (index * 0x1000 + (y * 256 + x * 16) + row) >>> col) &&& 0x01) ≤ 1 :=
    Nat.and_le_right
  have h2 : ((mem (index * 0x1000 + (y * 256 + x * 16) + row + 8) >>> col) &&& 0x01) ≤ 1 :=
    Nat.and_le_right
  simp only [patternPixelValue]
  omega

set_option maxRecDepth 8192 in
/-- C6: the instruction table is total and well-formed.  Its keys are
exactly the opcodes 0..255 in order (so every opcode has exactly one
entry and `decode_op` never fails), every entry's `opcode` field equals
its key, and every KIL (halt/jam) entry uses implied addressing with
cycle cost exactly (1, 0). -/
theorem c6_instruction_table_total_and_wellformed :
    (INSTRUCTION_SET.map Prod.fst = List.range 256) ∧
    ((List.range 256).all (fun op =>
      match Instruction.decode_op op with
      | some i =>
          i.opcode == op &&
          (!(i.operation == Operation.KIL) ||
            (i.addr_mode == AddrMode.IMP && i.cycles == (1, 0)))
      | none => false) = true) := by
  exact ⟨by decide, by decide⟩

/-! ## Bit-arithmetic helpers for the mirroring and byte-split proofs -/

/-- Masking with 0xFF is reduction mod 256. -/
theorem and_255_eq_mod (x : Nat) : x &&& 0xFF = x % 256 := by
  have h := Nat.and_pow_two_sub_one_eq_mod x 8
  norm_num at h
  exact h

/-- Masking with 0x07FF is reduction mod 0x800 (the 2 KiB RAM mirror). -/
theorem and_7ff_eq_mod (x : Nat) : x &&& 0x07ff = x % 0x800 := by
  have h := Nat.and_pow_two_sub_one_eq_mod x 11
  norm_num at h
  exact h

/-- Masking with 0x7 is reduction mod 8. -/
theorem and_7_eq_mod (x : Nat) : x &&& 0x7 = x % 8 := by
  have h := Nat.and_pow_two_sub_one_eq_mod x 3
  norm_num at h
  exact h

/-- Bitwise or of a multiple of 256 with a byte is plain addition. -/
theorem or_low_eq_add (hi lo : Nat) (h : lo < 256) : 256 * hi ||| lo = 256 * hi + lo := by
  have h' : lo < 2 ^ 8 := by norm_num; omega
  have h2 := Nat.mul_add_lt_is_or h' hi
  norm_num at h2
  exact h2.symm

/-- Division by a power of two distributes over bitwise and. -/
theorem and_div_two_pow (a b : Nat) : ∀ k, (a &&& b) / 2 ^ k = a / 2 ^ k &&& b / 2 ^ k
  | 0 => by simp
  | k + 1 => by
    rw [pow_succ, ← Nat.div_div_eq_div_mul, ← Nat.div_div_eq_div_mul,
      ← Nat.div_div_eq_div_mul, and_div_two_pow a b k, Nat.and_div_two]

/-- The bus PPU-window mask: for addresses in the mirrored window
`0x2000..=0x3FFF`, `addr & 0x2007` selects the register
`0x2000 + addr % 8`. -/
theorem and_2007_eq_mirror (addr : Nat) (h1 : 0x2000 ≤ addr) (h2 : addr ≤ 0x3fff) :
    addr &&& 0x2007 = 0x2000 + addr % 8 := by
  obtain ⟨k, hk, rfl⟩ : ∃ k, k < 0x2000 ∧ addr = 0x2000 + k :=
    ⟨addr - 0x2000, by omega, by omega⟩
  have hk' : k < 2 ^ 13 := by norm_num; omega
  have hsplit : (0x2000 : Nat) + k = 0x2000 ||| k := by
    have h3 := Nat.mul_add_lt_is_or hk' 1
    norm_num at h3
    exact h3
  have hbit : k &&& 0x2000 = 0 := by
    have h4 : k &&& 2 ^ 13 = (k.testBit 13).toNat * 2 ^ 13 := Nat.and_two_pow k 13
    rw [Nat.testBit_lt_two_pow hk'] at h4
    norm_num at h4
    exact h4
  have hk2007 : k &&& 0x2007 = k % 8 := by
    have h5 : (0x2007 : Nat) = 0x2000 ||| 0x7 := by decide
    rw [h5, Nat.and_or_distrib_left, hbit, Nat.zero_or, and_7_eq_mod]
  have hmod : (0x2000 + k) % 8 = k % 8 := by omega
  rw [hmod, hsplit, Nat.and_distrib_right, hk2007]
  have h6 : (0x2000 : Nat) &&& 0x2007 = 0x2000 := by decide
  rw [h6]
  have h7 : k % 8 < 2 ^ 13 := by
    have := Nat.mod_lt k (y := 8) (by norm_num)
    norm_num
    omega
  have h8 := Nat.mul_add_lt_is_or h7 1
  norm_num at h8
  exact h8.symm

/-- The counter-update phase of the clock touches no register. -/
theorem clockCounters_regs (p : PPU) : p.clockCounters.regs = p.regs := by
  unfold PPU.clockCounters
  split
  · split <;> rfl
  · rfl

/-- The counter-update phase of the clock does not touch the NMI flag. -/
theorem clockCounters_nmi (p : PPU) : p.clockCounters.nmi = p.nmi := by
  unfold PPU.clockCounters
  split
  · split <;> rfl
  · rfl

/-- Field-level description of the vblank/NMI phase of the clock: the
counters, frame flag and control register are untouched; the status
register gains the vblank bit exactly at (241, 1) and is masked with the
vblank bit cleared exactly at (261, 1); the NMI flag is or-ed with the
enable-NMI control bit exactly at (241, 1). -/
theorem clockFlags_spec (q : PPU) :
    q.clockFlags.scanline = q.scanline ∧
    q.clockFlags.cycle = q.cycle ∧
    q.clockFlags.frame_ready = q.frame_ready ∧
    q.clockFlags.regs.ctrl = q.regs.ctrl ∧
    (q.clockFlags.regs.status =
      if q.scanline == 241 && q.cycle == 1 then q.regs.status ||| VERTICAL_BLANK
      else if q.scanline == 261 && q.cycle == 1 then
        q.regs.status &&& (statusAll ^^^ VERTICAL_BLANK)
      else q.regs.status) ∧
    (q.clockFlags.nmi =
      if q.scanline == 241 && q.cycle == 1 then (q.nmi || q.get_control ENABLE_NMI)
      else q.nmi) := by
  unfold PPU.clockFlags PPU.set_status PPU.get_control
  by_cases h1 : (q.scanline == 241 && q.cycle == 1) = true
  · simp only [h1, if_true]
    by_cases h2 : (q.regs.ctrl &&& ENABLE_NMI == ENABLE_NMI) = true
    · simp [h2]
    · simp [h2]
  · by_cases h3 : (q.scanline == 261 && q.cycle == 1) = true
    · simp [h1, h3]
    · simp [h1, h3]

/-- Or-ing in the vblank flag sets status bit 7. -/
theorem testBit7_or_vblank (s : Nat) : (s ||| VERTICAL_BLANK).testBit 7 = true := by
  have h : VERTICAL_BLANK = 2 ^ 7 := by decide
  rw [h, Nat.testBit_or, Nat.testBit_two_pow_self, Bool.or_true]

/-- Masking with the complemented vblank flag clears status bit 7. -/
theorem testBit7_clear_vblank (s : Nat) :
    (s &&& (statusAll ^^^ VERTICAL_BLANK)).testBit 7 = false := by
  have h : statusAll ^^^ VERTICAL_BLANK = 0x60 := by decide
  rw [h, Nat.testBit_and]
  have h2 : (0x60 : Nat).testBit 7 = false := by decide
  rw [h2, Bool.and_false]

/-- C4: one clock step sets the vblank status bit exactly when it lands
on (scanline 241, cycle 1) — also or-ing the NMI request with the
enable-NMI control bit at that point and nowhere else — and clears the
vblank status bit exactly when it lands on (scanline 261, cycle 1); at
every other (scanline, cycle) pair the status register and the NMI flag
are unchanged.  The control register is never changed by the clock, so
"the enable-NMI control flag beforehand" is `p.get_control ENABLE_NMI`. -/
theorem c4_vblank_nmi_exactly_at_241_1_and_261_1 (p : PPU) :
    (p.clock.regs.status.testBit 7 =
      (if p.clock.scanline == 241 && p.clock.cycle == 1 then true
       else if p.clock.scanline == 261 && p.clock.cycle == 1 then false
       else p.regs.status.testBit 7)) ∧
    (p.clock.regs.status =
      (if p.clock.scanline == 241 && p.clock.cycle == 1 then
        p.regs.status ||| VERTICAL_BLANK
       else if p.clock.scanline == 261 && p.clock.cycle == 1 then
        p.regs.status &&& (statusAll ^^^ VERTICAL_BLANK)
       else p.regs.status)) ∧
    (p.clock.nmi =
      (if p.clock.scanline == 241 && p.clock.cycle == 1 then
        (p.nmi || p.get_control ENABLE_NMI)
       else p.nmi)) := by
  obtain ⟨hs, hc, _, _, hst, hn⟩ := clockFlags_spec p.clockCounters
  have hregs := clockCounters_regs p
  have hnmi := clockCounters_nmi p
  have hclock : p.clock = p.clockCounters.clockFlags := rfl
  have hctrl : p.clockCounters.get_control ENABLE_NMI = p.get_control ENABLE_NMI := by
    unfold PPU.get_control
    rw [hregs]
  rw [hregs] at hst
  rw [hnmi, hctrl] at hn
  rw [hclock, hs, hc, hst, hn]
  refine ⟨?_, rfl, rfl⟩
  by_cases h1 : (p.clockCounters.scanline == 241 && p.clockCounters.cycle == 1) = true
  · rw [if_pos h1, if_pos h1]
    exact testBit7_or_vblank _
  · rw [if_neg h1, if_neg h1]
    by_cases h2 : (p.clockCounters.scanline == 261 && p.clockCounters.cycle == 1) = true
    · rw [if_pos h2, if_pos h2]
      exact testBit7_clear_vblank _
    · rw [if_neg h2, if_neg h2]

/-- Within the first visible scanline, clocking the fresh PPU `n ≤ 340`
times just advances the cycle counter to `n`. -/
theorem clock_iterate_le_340 :
    ∀ n, n ≤ 340 → PPU.clock^[n] PPU.new = { PPU.new with cycle := n } := by
  intro n
  induction n with
  | zero => intro _; rfl
  | succ k ih =>
    intro h
    rw [Function.iterate_succ_apply', ih (by omega)]
    have hk : (k == 340) = false := by
      rw [beq_eq_false_iff_ne]
      omega
    show PPU.clockFlags (PPU.clockCounters _) = _
    simp [PPU.clockCounters, PPU.clockFlags, PPU.set_status, PPU.get_control,
      PPU.new, Registers.new, hk]

/-- C5: the counter transition of one clock step — cycle 340 wraps the
cycle to 0 and advances the scanline (scanline 261 wraps to 0 and sets
frame-ready), any other cycle just increments — together with the two
concrete consequences the spec states: 341 clocks from (cycle 0,
scanline 0) reach (cycle 0, scanline 1), and one clock from
(scanline 261, cycle 340) reaches (scanline 0, cycle 0) with
frame-ready set. -/
theorem c5_clock_counter_transitions :
    (∀ p : PPU,
      p.clock.cycle = (if p.cycle == 340 then 0 else p.cycle + 1) ∧
      p.clock.scanline =
        (if p.cycle == 340 then (if p.scanline == 261 then 0 else p.scanline + 1)
         else p.scanline) ∧
      p.clock.frame_ready =
        (if p.cycle == 340 && p.scanline == 261 then true else p.frame_ready)) ∧
    (PPU.clock^[341] PPU.new).cycle = 0 ∧
    (PPU.clock^[341] PPU.new).scanline = 1 ∧
    ({ PPU.new with scanline := 261, cycle := 340 } : PPU).clock.cycle = 0 ∧
    ({ PPU.new with scanline := 261, cycle := 340 } : PPU).clock.scanline = 0 ∧
    ({ PPU.new with scanline := 261, cycle := 340 } : PPU).clock.frame_ready = true := by
  have h341 : PPU.clock^[341] PPU.new = PPU.clock { PPU.new with cycle := 340 } := by
    rw [Function.iterate_succ_apply', clock_iterate_le_340 340 (le_refl _)]
  refine ⟨?_, by rw [h341]; decide, by rw [h341]; decide, by decide, by decide, by decide⟩
  intro p
  obtain ⟨hs, hc, hf, _, _, _⟩ := clockFlags_spec p.clockCounters
  have hclock : p.clock = p.clockCounters.clockFlags := rfl
  rw [hclock, hs, hc, hf]
  unfold PPU.clockCounters
  by_cases h1 : (p.cycle == 340) = true
  · by_cases h2 : (p.scanline == 261) = true
    · simp [h1, h2]
    · simp [h1, h2]
  · simp [h1]

/-- C7: bus routing for accesses not claimed by the cartridge (no
cartridge inserted).  Addresses `0x0000..=0x1FFF` read and write the RAM
byte at physical index `addr % 0x800` (the 2 KiB mirror of
`addr & 0x07FF`); addresses `0x2000..=0x3FFF` read and write the PPU
register `0x2000 + addr % 8` (the 8-byte mirror of `addr & 0x2007`);
every other address reads as 0x00 and drops writes, leaving the bus,
the PPU and the PPU-side memory unchanged. -/
theorem c7_bus_mirroring_and_default (m : NESMemory) (pmem : Nat → Nat) (addr data : Nat) :
    (m.readb pmem addr =
      (if addr ≤ 0x1fff then (m.ram (addr % 0x800), m)
       else if addr ≤ 0x3fff then
         ((m.ppu.readb pmem (0x2000 + addr % 8)).1,
          { m with ppu := (m.ppu.readb pmem (0x2000 + addr % 8)).2 })
       else (0x00, m))) ∧
    (m.writeb pmem addr data =
      (if addr ≤ 0x1fff then
         ({ m with ram := fun i => if i == addr % 0x800 then data else m.ram i }, pmem)
       else if addr ≤ 0x3fff then
         ({ m with ppu := (m.ppu.writeb pmem (0x2000 + addr % 8) data).1 },
          (m.ppu.writeb pmem (0x2000 + addr % 8) data).2)
       else (m, pmem))) := by
  unfold NESMemory.readb NESMemory.writeb
  by_cases h1 : addr ≤ 0x1fff
  · have hc1 : (0x0000 ≤ addr ∧ addr ≤ 0x1fff) := ⟨Nat.zero_le _, h1⟩
    rw [if_pos hc1, if_pos hc1, if_pos h1, if_pos h1, and_7ff_eq_mod]
    have hc2 : ¬ (0x2000 ≤ addr ∧ addr ≤ 0x3fff) := by omega
    rw [if_neg hc2]
    exact ⟨rfl, rfl⟩
  · have hc1 : ¬ (0x0000 ≤ addr ∧ addr ≤ 0x1fff) := by omega
    rw [if_neg hc1, if_neg hc1, if_neg h1, if_neg h1]
    by_cases h2 : addr ≤ 0x3fff
    · have hc2 : (0x2000 ≤ addr ∧ addr ≤ 0x3fff) := by omega
      rw [if_pos hc2, if_pos hc2, if_pos h2, if_pos h2,
        and_2007_eq_mirror addr (by omega) (by omega)]
      exact ⟨rfl, rfl⟩
    · have hc2 : ¬ (0x2000 ≤ addr ∧ addr ≤ 0x3fff) := by omega
      rw [if_neg hc2, if_neg hc2, if_neg h2, if_neg h2]
      exact ⟨rfl, rfl⟩

/-- Evaluation of a `0x2006` register write: the latch unset stores the
high byte (keeping the low), the latch set stores the low byte (keeping
the high); each write toggles the latch. -/
theorem writeb_2006 (p : PPU) (pmem : Nat → Nat) (d : Nat) :
    (p.writeb pmem 0x2006 d).1 =
      (if p.addr_latch_set = false then
        { p with
          regs := { p.regs with addr := p.regs.addr &&& 0x00FF ||| d <<< 8 }
          addr_latch_set := true }
      else
        { p with
          regs := { p.regs with addr := p.regs.addr &&& 0xFF00 ||| d }
          addr_latch_set := false }) := by
  cases hl : p.addr_latch_set <;> simp [PPU.writeb, hl]

/-- Division by 256 distributes over bitwise and. -/
theorem and_div_256 (a b : Nat) : (a &&& b) / 256 = a / 256 &&& b / 256 := by
  have h := and_div_two_pow a b 8
  norm_num at h
  exact h

/-- C8: starting with the address latch unset, a first `0x2006` write of
a byte `d1` yields VRAM address `256 * d1 + (old % 256)` — the high byte
becomes `d1`, the low byte is unchanged — and sets the latch; the second
write of `d2` yields `256 * d1 + d2` — the low byte becomes `d2`, the
high byte is unchanged — and clears the latch again. -/
theorem c8_addr_register_double_write (p : PPU) (pmem : Nat → Nat) (d1 d2 : Nat)
    (hl : p.addr_latch_set = false) (h1 : d1 < 256) (h2 : d2 < 256) :
    ((p.writeb pmem 0x2006 d1).1.regs.addr = 256 * d1 + p.regs.addr % 256) ∧
    ((p.writeb pmem 0x2006 d1).1.regs.addr % 256 = p.regs.addr % 256) ∧
    ((p.writeb pmem 0x2006 d1).1.regs.addr / 256 = d1) ∧
    ((p.writeb pmem 0x2006 d1).1.addr_latch_set = true) ∧
    (((p.writeb pmem 0x2006 d1).1.writeb pmem 0x2006 d2).1.regs.addr = 256 * d1 + d2) ∧
    (((p.writeb pmem 0x2006 d1).1.writeb pmem 0x2006 d2).1.regs.addr % 256 = d2) ∧
    (((p.writeb pmem 0x2006 d1).1.writeb pmem 0x2006 d2).1.regs.addr / 256 =
      (p.writeb pmem 0x2006 d1).1.regs.addr / 256) ∧
    (((p.writeb pmem 0x2006 d1).1.writeb pmem 0x2006 d2).1.addr_latch_set = false) := by
  have hlo : p.regs.addr % 256 < 256 := Nat.mod_lt _ (by norm_num)
  have hv1 : p.regs.addr &&& 0x00FF ||| d1 <<< 8 = 256 * d1 + p.regs.addr % 256 := by
    rw [Nat.shiftLeft_eq, and_255_eq_mod]
    have hm : d1 * 2 ^ 8 = 256 * d1 := by ring
    rw [hm, Nat.or_comm, or_low_eq_add _ _ hlo]
  have e1 : (p.writeb pmem 0x2006 d1).1 =
      { p with
        regs := { p.regs with addr := 256 * d1 + p.regs.addr % 256 }
        addr_latch_set := true } := by
    rw [writeb_2006, if_pos hl, hv1]
  have hmask : (256 * d1 + p.regs.addr % 256) &&& 0xFF00 = 256 * d1 := by
    have hzero : ((256 * d1 + p.regs.addr % 256) &&& 0xFF00) % 256 = 0 := by
      rw [← and_255_eq_mod, Nat.and_assoc]
      have hff : (0xFF00 : Nat) &&& 0xFF = 0 := by decide
      rw [hff, Nat.and_zero]
    have hdiv : ((256 * d1 + p.regs.addr % 256) &&& 0xFF00) / 256 = d1 := by
      rw [and_div_256]
      have ha : (256 * d1 + p.regs.addr % 256) / 256 = d1 := by omega
      have hb : (0xFF00 : Nat) / 256 = 0xFF := by norm_num
      rw [ha, hb, and_255_eq_mod]
      omega
    omega
  have hv2 : (256 * d1 + p.regs.addr % 256) &&& 0xFF00 ||| d2 = 256 * d1 + d2 := by
    rw [hmask, or_low_eq_add _ _ h2]
  have e2 : ((p.writeb pmem 0x2006 d1).1.writeb pmem 0x2006 d2).1.regs.addr
      = 256 * d1 + d2 := by
    rw [e1, writeb_2006]
    simp only [if_neg (by simp : ¬ (true = false))]
    exact hv2
  have e2l : ((p.writeb pmem 0x2006 d1).1.writeb pmem 0x2006 d2).1.addr_latch_set
      = false := by
    rw [e1, writeb_2006]
    simp
  have e1a : (p.writeb pmem 0x2006 d1).1.regs.addr = 256 * d1 + p.regs.addr % 256 := by
    rw [e1]
  have e1l : (p.writeb pmem 0x2006 d1).1.addr_latch_set = true := by
    rw [e1]
  refine ⟨e1a, by rw [e1a]; omega, by rw [e1a]; omega, e1l,
    e2, by rw [e2]; omega, by rw [e2, e1a]; omega, e2l⟩

/-- Empty PPU-side memory used by the C8 witness. -/
def c8pb : Nat → Nat := fun _ => 0x00

/-- Witness for C8: the spec's concrete sequence.  From a zero VRAM
address, writing 0x12 then 0x34 then 0x56 to 0x2006 yields addresses
0x1200, then 0x1234, then 0x5634. -/
theorem c8_addr_register_double_write_witness :
    ((PPU.new.writeb c8pb 0x2006 0x12).1.regs.addr = 0x1200) ∧
    (((PPU.new.writeb c8pb 0x2006 0x12).1.writeb c8pb 0x2006 0x34).1.regs.addr = 0x1234) ∧
    ((((PPU.new.writeb c8pb 0x2006 0x12).1.writeb c8pb 0x2006 0x34).1.writeb
        c8pb 0x2006 0x56).1.regs.addr = 0x5634) := by
  obtain ⟨ha1, _, _, _, ha2, _, _, hl2⟩ :=
    c8_addr_register_double_write PPU.new c8pb 0x12 0x34 rfl (by norm_num) (by norm_num)
  have h2 := c8_addr_register_double_write
    ((PPU.new.writeb c8pb 0x2006 0x12).1.writeb c8pb 0x2006 0x34).1 c8pb 0x56 0x00
    hl2 (by norm_num) (by norm_num)
  refine ⟨?_, ?_, ?_⟩
  · rw [ha1]
    norm_num [PPU.new, Registers.new]
  · rw [ha2]
  · rw [h2.1, ha2]

/-- C10: a PPU register read never changes the 16-bit VRAM address; a
`0x2007` read changes nothing but the data buffer (refilled from the
PPU-side memory); a write to any register other than `0x2006`/`0x2007`
leaves the VRAM address unchanged; and a `0x2007` write changes it only
by the post-write increment of 32 (increment-mode control flag set) or
1 (flag clear), wrapping as a 16-bit quantity. -/
theorem c10_vram_addr_changed_only_by_writes (p : PPU) (pmem : Nat → Nat) (a d : Nat) :
    ((p.readb pmem a).2.regs.addr = p.regs.addr) ∧
    ((p.readb pmem 0x2007).2 = { p with data_buffer := pmem 0x2007 }) ∧
    (a ≠ 0x2006 → a ≠ 0x2007 → (p.writeb pmem a d).1.regs.addr = p.regs.addr) ∧
    ((p.writeb pmem 0x2007 d).1.regs.addr =
      (p.regs.addr + (if p.get_control INCREMENT_MODE then 32 else 1)) % 65536) := by
  refine ⟨?_, ?_, ?_, ?_⟩
  · unfold PPU.readb PPU.set_status
    split
    · rfl
    · split
      · rfl
      · split
        · split <;> rfl
        · rfl
  · rfl
  · intro h6 h7
    unfold PPU.writeb
    have b6 : (a == 0x2006) = false := by
      rw [beq_eq_false_iff_ne]
      exact h6
    have b7 : (a == 0x2007) = false := by
      rw [beq_eq_false_iff_ne]
      exact h7
    simp only [b6, b7]
    split
    · rfl
    · split
      · rfl
      · split
        · rfl
        · split
          · rfl
          · split
            · rfl
            · simp
  · cases hc : p.get_control INCREMENT_MODE <;> simp [PPU.writeb, hc]

/-- Empty PPU-side memory used by the C10 witness. -/
def c10pb : Nat → Nat := fun _ => 0x00

/-- Witness for C10 at the status register 0x2002: neither reading nor
writing it moves the VRAM address. -/
theorem c10_vram_addr_witness :
    ((PPU.new.readb c10pb 0x2002).2.regs.addr = PPU.new.regs.addr) ∧
    ((PPU.new.writeb c10pb 0x2002 0x00).1.regs.addr = PPU.new.regs.addr) := by
  have h := c10_vram_addr_changed_only_by_writes PPU.new c10pb 0x2002 0x00
  exact ⟨h.1, h.2.2.1 (by decide) (by decide)⟩

/-- Monad-law helper: binding a successful `Except` applies the
continuation. -/
theorem except_bind_ok {α β : Type} (x : α) (f : α → Except CartError β) :
    (Except.ok x >>= f) = f x := rfl

/-- C9: for any byte source long enough to hold the container its header
declares (16-byte header, optional 512-byte trainer, the declared PRG
and CHR blocks), `Cartridge::new` fails with the distinct
"unsupported mapper" error carrying the numeric mapper id whenever that
id is non-zero — producing no cartridge value — and succeeds with the
mapper-0 cartridge built from the declared blocks when the id is 0. -/
theorem c9_mapper_selection (rom : List Nat) (h : Header)
    (hh : Header.new rom = Except.ok h)
    (hlen : (if h.has_trainer then 528 else 16) + h.prg_rom_chunks * 16384
      + h.chr_rom_chunks * 8192 ≤ rom.length) :
    Cartridge.new rom =
      (if h.get_mapper_id = 0 then
        Except.ok
          { prg_rom := (rom.drop (if h.has_trainer then 528 else 16)).take
              (h.prg_rom_chunks * 16384)
            chr_rom := (rom.drop ((if h.has_trainer then 528 else 16)
              + h.prg_rom_chunks * 16384)).take (h.chr_rom_chunks * 8192)
            mapper := { prg_banks := h.prg_rom_chunks, chr_banks := h.chr_rom_chunks }
            mirror := h.get_mirror_mode }
      else Except.error (CartError.unsupportedMapper h.get_mapper_id)) := by
  unfold Cartridge.new
  rw [hh, except_bind_ok]
  cases ht : h.has_trainer with
  | false =>
    rw [ht] at hlen
    simp only [ht, if_false, Bool.false_eq_true, if_neg (by simp : ¬ False)] at hlen ⊢
    have h1 : 16 + h.prg_rom_chunks * 16384 ≤ rom.length := by omega
    have h2 : 16 + h.prg_rom_chunks * 16384 + h.chr_rom_chunks * 8192 ≤ rom.length := by
      omega
    rw [readExact, if_pos h1, except_bind_ok, readExact, if_pos h2, except_bind_ok]
    cases hmid : h.get_mapper_id with
    | zero => rw [if_pos rfl, except_bind_ok]
    | succ n =>
      rw [if_neg (by omega)]
      rfl
  | true =>
    rw [ht] at hlen
    simp only [ht, if_true] at hlen ⊢
    have h1 : 16 + 512 + h.prg_rom_chunks * 16384 ≤ rom.length := by omega
    have h2 : 16 + 512 + h.prg_rom_chunks * 16384 + h.chr_rom_chunks * 8192 ≤ rom.length := by
      omega
    rw [readExact, if_pos h1, except_bind_ok, readExact, if_pos h2, except_bind_ok]
    cases hmid : h.get_mapper_id with
    | zero => rw [if_pos rfl, except_bind_ok]
    | succ n =>
      rw [if_neg (by omega)]
      rfl

/-- A minimal 16-byte container whose header encodes mapper id 1 (low
nibble of flags byte 6 is 1) and zero-sized PRG/CHR blocks. -/
def c9romBad : List Nat := [0, 0, 0, 0, 0, 0, 0x10, 0, 0, 0, 0, 0, 0, 0, 0, 0]

/-- The header parsed from `c9romBad`. -/
def c9hdrBad : Header :=
  { prg_rom_chunks := 0, chr_rom_chunks := 0, mapper1 := 0x10, mapper2 := 0,
    prg_ram_size := 0, tv1 := 0, tv2 := 0 }

/-- A minimal all-zero 16-byte container: mapper id 0, zero-sized
PRG/CHR blocks. -/
def c9romOk : List Nat := List.replicate 16 0

/-- The header parsed from `c9romOk`. -/
def c9hdrOk : Header :=
  { prg_rom_chunks := 0, chr_rom_chunks := 0, mapper1 := 0, mapper2 := 0,
    prg_ram_size := 0, tv1 := 0, tv2 := 0 }

/-- Witness for C9: the mapper-id-1 container fails with the
"unsupported mapper 1" error; the mapper-id-0 container loads. -/
theorem c9_mapper_selection_witness :
    Cartridge.new c9romBad = Except.error (CartError.unsupportedMapper 1) ∧
    Cartridge.new c9romOk =
      Except.ok
        { prg_rom := [], chr_rom := [],
          mapper := { prg_banks := 0, chr_banks := 0 },
          mirror := MirrorMode.HORIZONTAL } := by
  constructor
  · have h := c9_mapper_selection c9romBad c9hdrBad rfl (by decide)
    rw [h]
    rfl
  · have h := c9_mapper_selection c9romOk c9hdrOk rfl (by decide)
    rw [h]
    rfl
